import Mathlib

/-!
Verification of the sky_sim simulation core (src/main.rs).

The per-frame update is embedded shallowly:

* Machine floats (f32/f64) are modelled as exact rationals except where a
  transcendental function (cos, sin, log10, powf) forces the reals; claims
  about those functions are stated over the reals in a later section.
* The coherent-noise functions (the noise crate's Billow/Exponent) are
  external library state: they enter every definition as an explicit
  function parameter, so each claim quantifies over all possible noise
  samples.
* nannou's map_range is the unclamped affine remap
  out_min + (out_max - out_min) * ((val - in_min) / (in_max - in_min))
  computed in f64; nannou's clamp(n, lo, hi) is min (max n lo) hi when
  lo <= hi (all call sites here have lo <= hi).
* Rust saturating float-to-u8 casts become min 255 (Int.toNat (floor x)).
-/

namespace SkySim

/-- src/main.rs line 8: sun disc radius, u32. -/
def SUN_RADIUS : ℕ := 30

/-- src/main.rs line 9: sun aura band width, u32. -/
def SUN_AURA_SIZE : ℕ := 30

/-- src/main.rs line 31-32: screen size 450, as a scalar. -/
def SCREEN_SIZE_F : ℚ := 450

/-- src/main.rs line 36: cutoff below which a noise magnitude becomes density 0. -/
def ZERO_ALPHA_THRESHOLD : ℚ := 0.6

/-- src/main.rs line 37: upper remap-domain scaling constant for cloud density. -/
def ALPHA_ZERO_SCALING : ℚ := 1.2

/-- src/main.rs line 38: elapsed-time multiplier while the speedup key is held. -/
def SPEEDUP_FACTOR : ℚ := 9.5

/-- src/main.rs line 30: converts elapsed frames to the noise time offset. -/
def SPEED_MULTIPLIER : ℚ := 0.00005

/-- src/main.rs line 13: degrees of sun rotation per frame. -/
def SUN_CYCLE_SPEED : ℚ := 0.07

/-- src/main.rs line 10. -/
def SUN_START_X : ℚ := SCREEN_SIZE_F / 2

/-- src/main.rs line 11. -/
def SUN_START_Y : ℚ := SCREEN_SIZE_F * 0.8

/-- src/main.rs line 12: pivot the sun rotates around. -/
def SUN_ROTATE_POINT : ℚ × ℚ := (SCREEN_SIZE_F / 2, 0)

/-- src/main.rs line 19: moon radius, u32 arithmetic (30/2 + 30/5 = 21). -/
def MOON_RADIUS : ℕ := SUN_RADIUS / 2 + SUN_RADIUS / 5

/-- src/main.rs line 20: fixed moon centre. -/
def MOON_POS : ℚ × ℚ := (SCREEN_SIZE_F / 4, SUN_START_Y * 1.13)

/-- An Rgba<u8> colour: channels are machine bytes, modelled as naturals. -/
structure RgbaU8 where
  red : ℕ
  green : ℕ
  blue : ℕ
  alpha : ℕ
  deriving Repr, DecidableEq

/-- src/main.rs line 25: rgb(20, 30, 37); `.into()` to Rgba adds alpha 255. -/
def NIGHT_SKY_COLOR : RgbaU8 := ⟨20, 30, 37, 255⟩

/-- nannou's map_range (unclamped affine remap, computed in f64). -/
def map_range (val inMin inMax outMin outMax : ℚ) : ℚ :=
  outMin + (outMax - outMin) * ((val - inMin) / (inMax - inMin))

/-- src/main.rs lines 303-316: the per-cell density computation of the
per-frame NoiseField update, as a function of the raw 3-D noise sample `n`
at that cell: take the absolute value, collapse below-threshold magnitudes
to 0, otherwise remap over the domain from the threshold to
1 * ALPHA_ZERO_SCALING onto the range from 0 to 1. -/
def cellDensity (n : ℚ) : ℚ :=
  if |n| < ZERO_ALPHA_THRESHOLD then 0
  else map_range |n| ZERO_ALPHA_THRESHOLD (1 * ALPHA_ZERO_SCALING) 0 1

/-- A float value that may be NaN: `none` is NaN, `some q` a finite value. -/
abbrev FVal := Option ℚ

/-- IEEE abs: abs of NaN is NaN. -/
def fAbs (a : FVal) : FVal := a.map abs

/-- IEEE `<`: any comparison with NaN is false. -/
def fLt (a b : FVal) : Bool :=
  match a, b with
  | some x, some y => decide (x < y)
  | _, _ => false

/-- map_range with NaN propagation: a NaN operand yields NaN. -/
def fMapRange (v i1 i2 o1 o2 : FVal) : FVal :=
  match v, i1, i2, o1, o2 with
  | some a, some b, some c, some d, some e => some (map_range a b c d e)
  | _, _, _, _, _ => none

/-- src/main.rs lines 303-316 again, but over NaN-aware values, mirroring the
IEEE comparison semantics of `alpha < ZERO_ALPHA_THRESHOLD`: false for NaN,
so a NaN sample falls into the remap branch. -/
def cellDensityF (n : FVal) : FVal :=
  if fLt (fAbs n) (some ZERO_ALPHA_THRESHOLD) then some 0
  else fMapRange (fAbs n) (some ZERO_ALPHA_THRESHOLD) (some (1 * ALPHA_ZERO_SCALING))
    (some 0) (some 1)

/-- src/main.rs lines 63-66: (u as f64 * f) as u8, a truncating saturating cast. -/
def u_fmul (u : ℕ) (f : ℚ) : ℕ :=
  min 255 (Int.toNat ⌊(u : ℚ) * f⌋)

/-- src/main.rs lines 68-83: scale each colour channel by (1 - factor),
leaving alpha unchanged. -/
def darken_by (c : RgbaU8) (factor : ℚ) : RgbaU8 :=
  ⟨u_fmul c.red (1 - factor), u_fmul c.green (1 - factor),
   u_fmul c.blue (1 - factor), c.alpha⟩

/-- src/main.rs lines 168-171: Sun::has_set on a position p.  True unless the
disc's left edge at radius SUN_RADIUS is right of x = 0, the centre is above
the horizon, and x minus (SUN_RADIUS + SUN_AURA_SIZE) is left of the screen
width.  Note the third conjunct subtracts the aura-extended radius; it does
not test x plus it. -/
def hasSet (p : ℚ × ℚ) : Bool :=
  !(decide (p.1 - (SUN_RADIUS : ℚ) > 0) && decide (p.2 > 0) &&
    decide (p.1 - ((SUN_RADIUS : ℚ) + (SUN_AURA_SIZE : ℚ)) < SCREEN_SIZE_F))

/-- Modelled from the spec's words, for comparison with `hasSet` (the claim
describes has_set as: true unless the disc is fully above the horizon AND its
leading and trailing edges at x plus-or-minus (R + aura) are within the
screen's horizontal bounds). -/
def hasSetSpec (p : ℚ × ℚ) : Bool :=
  !(decide (p.2 > 0) &&
    decide (0 ≤ p.1 - ((SUN_RADIUS : ℚ) + (SUN_AURA_SIZE : ℚ))) &&
    decide (p.1 + ((SUN_RADIUS : ℚ) + (SUN_AURA_SIZE : ℚ)) ≤ SCREEN_SIZE_F))

/-- src/main.rs line 352: the darkening factor derived from the summed cloud
coverage inside the sun disc: map_range over the domain from 0 to 120 onto the
range from 0 to 0.4 (map_range does not clamp). -/
def darkenFactor (covered : ℚ) : ℚ :=
  map_range covered 0 120 0 0.4

/-- src/main.rs lines 337-356: the occlusion step of the per-frame update,
as a function of the sun position, the summed coverage and the current sky
colour: darken while the sun is up, else use the fixed night colour. -/
def occlusionUpdate (p : ℚ × ℚ) (covered : ℚ) (sky : RgbaU8) : RgbaU8 :=
  if hasSet p then NIGHT_SKY_COLOR
  else darken_by sky (darkenFactor covered)

/-- src/main.rs lines 223-228: the alpha stored for one moon-texture point,
as a function of the 2-D noise sample function and the point's position:
scale the magnitude by 0.75, zero below 0.2, else remap from the domain 0.2
to 1 onto the range 0 to 0.85. -/
def moonAlpha (noise : ℚ → ℚ → ℚ) (px py : ℚ) : ℚ :=
  let a := |noise (px / 2) (py / 2)| * 0.75
  if a < 0.2 then 0 else map_range a 0.2 1 0 0.85

/-- The loop indices of Moon::new: i and j each range over -21 to 20
(for i in -r_i..r_i, exclusive upper bound). -/
def moonIdx : List ℤ :=
  (List.range (2 * MOON_RADIUS)).map fun k => (k : ℤ) - (MOON_RADIUS : ℤ)

/-- src/main.rs lines 207-236: Moon::new, as a function of the noise sample
function.  A point at offset (i, j) from the centre is kept when its distance
to the centre is below MOON_RADIUS; since px - x = -i and py - y = -j, the
f32 test point.distance(center) < 21 is exactly i*i + j*j < 441 (both sides
of the sqrt comparison are nonnegative and 441 has an exact square root). -/
def moonTexture (noise : ℚ → ℚ → ℚ) : List ((ℚ × ℚ) × ℚ) :=
  moonIdx.flatMap fun i =>
    moonIdx.filterMap fun j =>
      let px := MOON_POS.1 - (i : ℚ)
      let py := MOON_POS.2 - (j : ℚ)
      if i * i + j * j < (MOON_RADIUS : ℤ) * (MOON_RADIUS : ℤ) then
        some ((px, py), moonAlpha noise px py)
      else none

/-- The alpha property claimed for each stored moon-texture entry, recomputed
from the entry's own position: 0 below the 0.2 threshold, else the remap onto
the range 0 to 0.85. -/
def alphaSpec (noise : ℚ → ℚ → ℚ) (e : (ℚ × ℚ) × ℚ) : Bool :=
  let a := |noise (e.1.1 / 2) (e.1.2 / 2)| * 0.75
  if a < 0.2 then decide (e.2 = 0) else decide (e.2 = map_range a 0.2 1 0 0.85)

/-- Rust's `SPEEDUP_FACTOR as u64`: a const float-to-integer cast truncates
toward zero. -/
def ratToU64 (q : ℚ) : ℕ := Int.toNat ⌊q⌋

/-- src/main.rs lines 285-292: the frame count handed to advance_sun_pos,
scaled by `SPEEDUP_FACTOR as u64` while speedup is held. -/
def sunFrames (speedup : Bool) (frames : ℕ) : ℕ :=
  frames * (if speedup then ratToU64 SPEEDUP_FACTOR else 1)

/-- src/main.rs lines 278-280: the elapsed-time delta feeding the cloud field,
scaled by the full float SPEEDUP_FACTOR while speedup is held. -/
def cloudDelta (speedup : Bool) (frames : ℕ) : ℚ :=
  (frames : ℚ) * SPEED_MULTIPLIER * (if speedup then SPEEDUP_FACTOR else 1)

/-- nannou's clamp(n, start, end) in the start <= end case (every call site
here passes start = 0, end = 1). -/
noncomputable def clampR (n lo hi : ℝ) : ℝ := min (max n lo) hi

/-- nannou's map_range over the reals, for the call sites whose inputs pass
through transcendental functions. -/
noncomputable def map_rangeR (val inMin inMax outMin outMax : ℝ) : ℝ :=
  outMin + (outMax - outMin) * ((val - inMin) / (inMax - inMin))

/-- Rust's f32 % operator on a nonnegative dividend and positive divisor
(where truncation and floor agree): x - y * floor (x / y). -/
noncomputable def fmod (x y : ℝ) : ℝ := x - y * ⌊x / y⌋

/-- nannou's deg_to_rad. -/
noncomputable def degToRad (d : ℝ) : ℝ := d * Real.pi / 180

/-- src/main.rs lines 107-108: the signed rotation angle used by
advance_sun_pos, a function of the (cast) frame count: the frame count modulo
360 / SUN_CYCLE_SPEED, scaled by SUN_CYCLE_SPEED, in degrees, negated. -/
noncomputable def sunAngle (frames : ℝ) : ℝ :=
  -(degToRad (fmod frames (360 / (SUN_CYCLE_SPEED : ℝ)) * (SUN_CYCLE_SPEED : ℝ)))

/-- src/main.rs lines 103-115: Sun::advance_sun_pos as the pure function of
the frame count it stores into self.pos: the fixed start point rotated about
SUN_ROTATE_POINT by sunAngle. -/
noncomputable def sunPos (frames : ℝ) : ℝ × ℝ :=
  ((SUN_ROTATE_POINT.1 : ℝ)
      + Real.cos (sunAngle frames) * ((SUN_START_X : ℝ) - (SUN_ROTATE_POINT.1 : ℝ))
      - Real.sin (sunAngle frames) * ((SUN_START_Y : ℝ) - (SUN_ROTATE_POINT.2 : ℝ)),
   (SUN_ROTATE_POINT.2 : ℝ)
      + Real.sin (sunAngle frames) * ((SUN_START_X : ℝ) - (SUN_ROTATE_POINT.1 : ℝ))
      + Real.cos (sunAngle frames) * ((SUN_START_Y : ℝ) - (SUN_ROTATE_POINT.2 : ℝ)))

/-- src/main.rs lines 138-141: the value inside Some of rising_amount: the
left-edge distance remapped from the domain -2 * SUN_RADIUS to 0 onto 0 to 1,
clamped, passed through 1 - |log10|, clamped again (exactly the source's
clamp-log-clamp order).  Real.logb is the real logarithm (its junk value at 0
differs from IEEE -infinity, but both final results agree after the outer
clamp onto the unit interval). -/
noncomputable def risingVal (p : ℚ × ℚ) : ℝ :=
  clampR (1 - |Real.logb 10 (clampR
    (map_rangeR ((p.1 : ℝ) - (SUN_RADIUS : ℝ)) ((SUN_RADIUS : ℝ) * (-2)) 0 0 1)
    0 1)|) 0 1

/-- src/main.rs lines 134-147: Sun::rising_amount: defined exactly when the
left edge is at or left of x = 0 while has_set() holds. -/
noncomputable def risingAmount (p : ℚ × ℚ) : Option ℝ :=
  if p.1 - (SUN_RADIUS : ℚ) ≤ 0 ∧ hasSet p = true then some (risingVal p) else none

/-- src/main.rs lines 153-162: the value inside Some of setting_amount:
the right-edge distance remapped from the domain SCREEN_SIZE_F to
SCREEN_SIZE_F + 2 * SUN_RADIUS onto 0 to 1, then clamp-log-clamp as for
rising. -/
noncomputable def settingVal (p : ℚ × ℚ) : ℝ :=
  clampR (1 - |Real.logb 10 (clampR
    (map_rangeR ((p.1 : ℝ) + (SUN_RADIUS : ℝ)) (SCREEN_SIZE_F : ℝ)
      ((SCREEN_SIZE_F : ℝ) + (SUN_RADIUS : ℝ) * 2) 0 1) 0 1)|) 0 1

/-- src/main.rs lines 149-167: Sun::setting_amount: defined exactly when the
right edge is at or past the screen width while has_set() does not hold. -/
noncomputable def settingAmount (p : ℚ × ℚ) : Option ℝ :=
  if (SCREEN_SIZE_F : ℚ) ≤ p.1 + (SUN_RADIUS : ℚ) ∧ hasSet p = false then
    some (settingVal p)
  else none

/-- The value inside an optional amount, when defined, lies in the unit
interval. -/
def optInUnit (o : Option ℝ) : Prop := o.elim True fun a => 0 ≤ a ∧ a ≤ 1

/-- src/main.rs lines 326-334: the cycle amount the per-frame update passes to
transition_sky_color: 1 minus the rising fraction, else the setting fraction,
else 1 once set, else 0. -/
noncomputable def cycleAmount (p : ℚ × ℚ) : ℝ :=
  match risingAmount p with
  | some amt => 1 - amt
  | none =>
    match settingAmount p with
    | some amt => amt
    | none => if hasSet p then 1 else 0

/-- palette's sRGB-channel to linear-channel conversion (into_lin_srgba):
x / 12.92 below the 0.04045 knee, else ((x + 0.055) / 1.055) ^ 2.4. -/
noncomputable def s2l (x : ℝ) : ℝ :=
  if x ≤ 0.04045 then x / 12.92 else ((x + 0.055) / 1.055) ^ (2.4 : ℝ)

/-- palette's linear-channel to sRGB-channel conversion (from_linear):
y * 12.92 below the 0.0031308 knee, else y ^ (1 / 2.4) * 1.055 - 0.055. -/
noncomputable def l2s (y : ℝ) : ℝ :=
  if y ≤ 0.0031308 then y * 12.92 else y ^ ((1 : ℝ) / 2.4) * 1.055 - 0.055

/-- src/main.rs line 120: the CSS colour LightSkyBlue, the day endpoint of the
sky gradient. -/
def LIGHTSKYBLUE : RgbaU8 := ⟨135, 206, 250, 255⟩

/-- src/main.rs line 26: rgb(254, 172, 39), the middle gradient stop. -/
def SUNSET_SKY_COLOR : RgbaU8 := ⟨254, 172, 39, 255⟩

/-- An sRGB u8 colour taken into linear space channel-wise (into_lin_srgba:
each byte is divided by 255 and decoded). -/
noncomputable def linColor (c : RgbaU8) : ℝ × ℝ × ℝ :=
  (s2l ((c.red : ℝ) / 255), s2l ((c.green : ℝ) / 255), s2l ((c.blue : ℝ) / 255))

/-- palette's Mix for linear colours: self + (other - self) * factor,
channel-wise. -/
noncomputable def mixColor (c d : ℝ × ℝ × ℝ) (f : ℝ) : ℝ × ℝ × ℝ :=
  (c.1 + (d.1 - c.1) * f, c.2.1 + (d.2.1 - c.2.1) * f, c.2.2 + (d.2.2 - c.2.2) * f)

/-- src/main.rs lines 118-125: the three-stop gradient built by
transition_sky_color, sampled at position t of its domain 0 to 1: linear
interpolation in linear colour space between stops at 0, 1/2 and 1. -/
noncomputable def gradientGet (t : ℝ) : ℝ × ℝ × ℝ :=
  if t ≤ 1 / 2 then mixColor (linColor LIGHTSKYBLUE) (linColor SUNSET_SKY_COLOR) (2 * t)
  else mixColor (linColor SUNSET_SKY_COLOR) (linColor NIGHT_SKY_COLOR) (2 * t - 1)

/-- nannou map_range's NumCast into u8 for an in-range f64: truncation. -/
noncomputable def floatToU8 (x : ℝ) : ℕ := Int.toNat ⌊x⌋

/-- src/main.rs lines 127-131: the colour produced for quantization index k of
gradient.take(101).  palette 0.5 (what nannou re-exports) samples its Take
iterator at position k / len of the domain, end-exclusive: sample k sits at
k / 101, so sample 100 falls one quantization step short of the domain's end
(this was only changed to endpoint-inclusive spacing in palette 0.6).  The
linear sample is converted back to sRGB (Rgba::from_linear) and each channel
remapped from 0 to 1 onto 0 to 255 as u8. -/
noncomputable def sampleColor (k : ℕ) : ℕ × ℕ × ℕ :=
  (floatToU8 (map_rangeR (l2s (gradientGet ((k : ℝ) / 101)).1) 0 1 0 255),
   floatToU8 (map_rangeR (l2s (gradientGet ((k : ℝ) / 101)).2.1) 0 1 0 255),
   floatToU8 (map_rangeR (l2s (gradientGet ((k : ℝ) / 101)).2.2) 0 1 0 255))

/-- src/main.rs lines 117-132: Sun::transition_sky_color.  The quantization
index is map_range(amount, 0., 1., 0, 100) cast to usize; `none` models the
two panic paths: a negative f64 fails the NumCast to usize, and an index past
100 makes take(101).nth return None, which the source unwraps. -/
noncomputable def transition_sky_color (amount : ℝ) : Option (ℕ × ℕ × ℕ) :=
  if 0 ≤ map_rangeR amount 0 1 0 100 then
    if Int.toNat ⌊map_rangeR amount 0 1 0 100⌋ ≤ 100 then
      some (sampleColor (Int.toNat ⌊map_rangeR amount 0 1 0 100⌋))
    else none
  else none

/-! Helper lemmas. -/

lemma fmod_idem (x y : ℝ) (hy : y ≠ 0) : fmod (fmod x y) y = fmod x y := by
  have h1 : fmod x y = y * Int.fract (x / y) := by
    rw [fmod, Int.fract]
    field_simp
  rw [h1, fmod, mul_div_cancel_left₀ _ hy]
  rw [show ⌊Int.fract (x / y)⌋ = 0 from
    Int.floor_eq_zero_iff.mpr ⟨Int.fract_nonneg _, Int.fract_lt_one _⟩]
  simp

lemma clampR_mem01 (x : ℝ) : 0 ≤ clampR x 0 1 ∧ clampR x 0 1 ≤ 1 :=
  ⟨le_min (le_max_right x 0) zero_le_one, min_le_right _ _⟩

lemma risingVal_mem (p : ℚ × ℚ) : 0 ≤ risingVal p ∧ risingVal p ≤ 1 := by
  rw [risingVal]
  exact clampR_mem01 _

lemma settingVal_mem (p : ℚ × ℚ) : 0 ≤ settingVal p ∧ settingVal p ≤ 1 := by
  rw [settingVal]
  exact clampR_mem01 _

lemma cycleAmount_mem (p : ℚ × ℚ) : 0 ≤ cycleAmount p ∧ cycleAmount p ≤ 1 := by
  rw [cycleAmount]
  cases hr : risingAmount p with
  | some a =>
    dsimp only
    rw [risingAmount] at hr
    split_ifs at hr with h
    · injection hr with hr2
      have hm := risingVal_mem p
      rw [← hr2]
      constructor <;> linarith [hm.1, hm.2]
  | none =>
    dsimp only
    cases hs : settingAmount p with
    | some a =>
      dsimp only
      rw [settingAmount] at hs
      split_ifs at hs with h
      · injection hs with hs2
        rw [← hs2]
        exact settingVal_mem p
    | none =>
      dsimp only
      split_ifs <;> norm_num

lemma srgb_branch_bound (a : ℝ) (hlow : (533 / 4224 : ℝ) ≤ a) (_ha1 : a ≤ 1) :
    (0.0031308 : ℝ) < a ^ (2.4 : ℝ) := by
  have ha00 : (0 : ℝ) < 533 / 4224 := by norm_num
  have h52 : (533 / 4224 : ℝ) ^ ((5 : ℝ) / 2) ≤ (533 / 4224 : ℝ) ^ (2.4 : ℝ) :=
    Real.rpow_le_rpow_of_exponent_ge ha00 (by norm_num) (by norm_num)
  have hsq : (533 / 4224 : ℝ) ^ ((5 : ℝ) / 2) =
      Real.sqrt ((533 / 4224 : ℝ) ^ (5 : ℕ)) := by
    rw [Real.sqrt_eq_rpow, ← Real.rpow_natCast (533 / 4224 : ℝ) 5,
      ← Real.rpow_mul ha00.le]
    norm_num
  have hlt : (0.0031308 : ℝ) < Real.sqrt ((533 / 4224 : ℝ) ^ (5 : ℕ)) := by
    rw [Real.lt_sqrt (by norm_num)]
    norm_num
  calc (0.0031308 : ℝ) < Real.sqrt ((533 / 4224 : ℝ) ^ (5 : ℕ)) := hlt
    _ = (533 / 4224 : ℝ) ^ ((5 : ℝ) / 2) := hsq.symm
    _ ≤ (533 / 4224 : ℝ) ^ (2.4 : ℝ) := h52
    _ ≤ a ^ (2.4 : ℝ) := Real.rpow_le_rpow ha00.le hlow (by norm_num)

lemma l2s_s2l (x : ℝ) (h1 : 5 / 64 ≤ x) (h2 : x ≤ 1) : l2s (s2l x) = x := by
  have hx : ¬x ≤ 0.04045 := by
    push_neg
    calc (0.04045 : ℝ) < 5 / 64 := by norm_num
      _ ≤ x := h1
  rw [s2l, if_neg hx]
  have ha0 : (0 : ℝ) < (x + 0.055) / 1.055 := by
    apply div_pos <;> [linarith; norm_num]
  have halow : (533 / 4224 : ℝ) ≤ (x + 0.055) / 1.055 := by
    rw [le_div_iff₀ (by norm_num : (0 : ℝ) < 1.055)]
    nlinarith
  have ha1 : (x + 0.055) / 1.055 ≤ 1 := by
    rw [div_le_one (by norm_num : (0 : ℝ) < 1.055)]
    linarith
  have hbig := srgb_branch_bound _ halow ha1
  rw [l2s, if_neg (not_le.mpr hbig)]
  rw [← Real.rpow_mul ha0.le]
  rw [show (2.4 : ℝ) * (1 / 2.4) = 1 by norm_num, Real.rpow_one]
  field_simp

lemma mixColor_zero (c d : ℝ × ℝ × ℝ) : mixColor c d 0 = c := by
  simp [mixColor]

lemma mixColor_one (c d : ℝ × ℝ × ℝ) : mixColor c d 1 = d := by
  obtain ⟨c1, c2, c3⟩ := c
  obtain ⟨d1, d2, d3⟩ := d
  simp only [mixColor, Prod.mk.injEq]
  refine ⟨by ring, by ring, by ring⟩

lemma mapR01_100 (a : ℝ) : map_rangeR a 0 1 0 100 = 100 * a := by
  rw [map_rangeR]
  ring

lemma channel_out (v : ℕ) (hv : 20 ≤ v) (hv2 : v ≤ 255) :
    floatToU8 (map_rangeR (l2s (s2l ((v : ℝ) / 255))) 0 1 0 255) = v := by
  have h1 : (5 / 64 : ℝ) ≤ (v : ℝ) / 255 := by
    rw [le_div_iff₀ (by norm_num : (0 : ℝ) < 255)]
    have : (20 : ℝ) ≤ (v : ℝ) := by exact_mod_cast hv
    nlinarith
  have h2 : ((v : ℝ) / 255) ≤ 1 := by
    rw [div_le_one (by norm_num : (0 : ℝ) < 255)]
    exact_mod_cast hv2
  rw [l2s_s2l _ h1 h2, map_rangeR]
  rw [show (0 : ℝ) + (255 - 0) * (((v : ℝ) / 255 - 0) / (1 - 0)) = (v : ℝ) by
    field_simp]
  rw [floatToU8, Int.floor_natCast]
  exact Int.toNat_natCast v

lemma transition_isSome (a : ℝ) (h0 : 0 ≤ a) (h1 : a ≤ 1) :
    (transition_sky_color a).isSome = true := by
  have hle : (100 : ℝ) * a ≤ 100 := by nlinarith
  have hf : ⌊(100 : ℝ) * a⌋ ≤ 100 := by
    calc ⌊(100 : ℝ) * a⌋ ≤ ⌊(100 : ℝ)⌋ := Int.floor_le_floor hle
      _ = 100 := by norm_num
  rw [transition_sky_color, mapR01_100]
  rw [if_pos (by positivity : (0 : ℝ) ≤ 100 * a)]
  rw [if_pos (Int.toNat_le.mpr hf)]
  rfl

lemma mapR01_255 (a : ℝ) : map_rangeR a 0 1 0 255 = 255 * a := by
  rw [map_rangeR]
  ring

lemma transition_one : transition_sky_color 1 = some (sampleColor 100) := by
  rw [transition_sky_color, mapR01_100]
  norm_num
  rw [show Int.toNat (100 : ℤ) = 100 from rfl]

lemma gradient_end : gradientGet ((100 : ℝ) / 101) =
    mixColor (linColor SUNSET_SKY_COLOR) (linColor NIGHT_SKY_COLOR) (99 / 101) := by
  rw [gradientGet, if_neg (by norm_num)]
  congr 1
  norm_num

lemma s2l_254_lb : (0.9888 : ℝ) ≤ s2l ((254 : ℝ) / 255) := by
  rw [s2l, if_neg (by norm_num)]
  have ha0 : (0 : ℝ) < (254 / 255 + 0.055) / 1.055 := by norm_num
  have ha1 : ((254 / 255 + 0.055) / 1.055 : ℝ) ≤ 1 := by norm_num
  have h3 : ((254 / 255 + 0.055) / 1.055 : ℝ) ^ (3 : ℝ) ≤
      ((254 / 255 + 0.055) / 1.055 : ℝ) ^ (2.4 : ℝ) :=
    Real.rpow_le_rpow_of_exponent_ge ha0 ha1 (by norm_num)
  have hnat : ((254 / 255 + 0.055) / 1.055 : ℝ) ^ (3 : ℝ) =
      ((254 / 255 + 0.055) / 1.055 : ℝ) ^ (3 : ℕ) := Real.rpow_natCast _ 3
  have hval : (0.9888 : ℝ) ≤ ((254 / 255 + 0.055) / 1.055 : ℝ) ^ (3 : ℕ) := by
    norm_num
  linarith

lemma s2l_20_nonneg : (0 : ℝ) ≤ s2l ((20 : ℝ) / 255) := by
  rw [s2l, if_neg (by norm_num)]
  positivity

lemma l2s_lb (y : ℝ) (h : (0.0195 : ℝ) ≤ y) : (21 / 255 : ℝ) ≤ l2s y := by
  rw [l2s, if_neg (by push_neg; linarith)]
  have hc0 : (0 : ℝ) < (21 / 255 + 0.055) / 1.055 := by norm_num
  have hc1 : ((21 / 255 + 0.055) / 1.055 : ℝ) ≤ 1 := by norm_num
  have h24 : ((21 / 255 + 0.055) / 1.055 : ℝ) ^ (2.4 : ℝ) ≤
      ((21 / 255 + 0.055) / 1.055 : ℝ) ^ (2 : ℝ) :=
    Real.rpow_le_rpow_of_exponent_ge hc0 hc1 (by norm_num)
  have hnat : ((21 / 255 + 0.055) / 1.055 : ℝ) ^ (2 : ℝ) =
      ((21 / 255 + 0.055) / 1.055 : ℝ) ^ (2 : ℕ) := Real.rpow_natCast _ 2
  have hsq : ((21 / 255 + 0.055) / 1.055 : ℝ) ^ (2 : ℕ) ≤ 0.0195 := by
    norm_num
  have hcy : ((21 / 255 + 0.055) / 1.055 : ℝ) ^ (2.4 : ℝ) ≤ y := by linarith
  have hmono : (((21 / 255 + 0.055) / 1.055 : ℝ) ^ (2.4 : ℝ)) ^ ((1 : ℝ) / 2.4) ≤
      y ^ ((1 : ℝ) / 2.4) :=
    Real.rpow_le_rpow (Real.rpow_nonneg hc0.le _) hcy (by norm_num)
  have hidem : (((21 / 255 + 0.055) / 1.055 : ℝ) ^ (2.4 : ℝ)) ^ ((1 : ℝ) / 2.4) =
      ((21 / 255 + 0.055) / 1.055 : ℝ) := by
    rw [← Real.rpow_mul hc0.le]
    rw [show (2.4 : ℝ) * (1 / 2.4) = 1 by norm_num, Real.rpow_one]
  rw [hidem] at hmono
  nlinarith

lemma sample100_red_lb : 21 ≤ (sampleColor 100).1 := by
  have hm : (gradientGet ((100 : ℝ) / 101)).1 =
      (2 / 101) * s2l ((254 : ℝ) / 255) + (99 / 101) * s2l ((20 : ℝ) / 255) := by
    rw [gradient_end]
    simp only [mixColor, linColor, SUNSET_SKY_COLOR, NIGHT_SKY_COLOR]
    push_cast
    ring
  have hlb : (0.0195 : ℝ) ≤ (gradientGet ((100 : ℝ) / 101)).1 := by
    rw [hm]
    have h1 := s2l_254_lb
    have h2 := s2l_20_nonneg
    nlinarith
  have hl2s := l2s_lb _ hlb
  show 21 ≤ floatToU8 (map_rangeR (l2s (gradientGet (((100 : ℕ) : ℝ) / 101)).1) 0 1 0 255)
  rw [show (((100 : ℕ) : ℝ) : ℝ) = (100 : ℝ) by norm_num]
  rw [mapR01_255, floatToU8]
  have h21 : (21 : ℝ) ≤ 255 * l2s (gradientGet ((100 : ℝ) / 101)).1 := by nlinarith
  have hfl : (21 : ℤ) ≤ ⌊255 * l2s (gradientGet ((100 : ℝ) / 101)).1⌋ := by
    rw [Int.le_floor]
    exact_mod_cast h21
  omega

/-! The claims. -/

/-- C1 (amended): the per-cell NoiseField density is exactly 0 whenever the
raw noise magnitude is below ZERO_ALPHA_THRESHOLD; at or above the cutoff it
is the linear map_range remap with the cutoff and 1 * ALPHA_ZERO_SCALING as
domain bounds; and it lies in the unit interval whenever the raw magnitude is
at most ALPHA_ZERO_SCALING.  (The unconditional unit-interval bound of the
original claim is false: map_range does not clamp, see the counterexample.) -/
theorem C1_density (n : ℚ) :
    (|n| < ZERO_ALPHA_THRESHOLD → cellDensity n = 0) ∧
    (ZERO_ALPHA_THRESHOLD ≤ |n| →
      cellDensity n = map_range |n| ZERO_ALPHA_THRESHOLD (1 * ALPHA_ZERO_SCALING) 0 1) ∧
    (|n| ≤ ALPHA_ZERO_SCALING → 0 ≤ cellDensity n ∧ cellDensity n ≤ 1) := by
  refine ⟨fun h => by rw [cellDensity, if_pos h],
    fun h => by rw [cellDensity, if_neg (not_lt.mpr h)], fun h => ?_⟩
  rw [cellDensity]
  split_ifs with hlt
  · norm_num
  · push_neg at hlt
    rw [map_range]
    rw [ZERO_ALPHA_THRESHOLD] at hlt ⊢
    rw [ALPHA_ZERO_SCALING] at h ⊢
    constructor
    · have hnum : (0 : ℚ) ≤ |n| - 0.6 := by linarith
      have hden : (0 : ℚ) ≤ 1 * 1.2 - 0.6 := by norm_num
      have := div_nonneg hnum hden
      linarith
    · have hden : (0 : ℚ) < 1 * 1.2 - 0.6 := by norm_num
      have := (div_le_one hden).mpr (by linarith : |n| - 0.6 ≤ 1 * 1.2 - 0.6)
      linarith

/-- C1 witness: the theorem instantiated at the raw sample 9/10, which is at
the remap branch and in the unit interval. -/
theorem C1_density_witness :
    cellDensity (9 / 10) =
      map_range (9 / 10) ZERO_ALPHA_THRESHOLD (1 * ALPHA_ZERO_SCALING) 0 1 ∧
    0 ≤ cellDensity (9 / 10) ∧ cellDensity (9 / 10) ≤ 1 := by
  have habs : |(9 / 10 : ℚ)| = 9 / 10 := by norm_num
  have h2 := (C1_density (9 / 10)).2.1 (by rw [habs]; norm_num [ZERO_ALPHA_THRESHOLD])
  have h3 := (C1_density (9 / 10)).2.2 (by rw [habs]; norm_num [ALPHA_ZERO_SCALING])
  rw [habs] at h2
  exact ⟨h2, h3⟩

/-- C1 counterexample: a raw noise magnitude of 9/5 (above the 1.2 scaling
constant) is stored as density 2, outside the unit interval, refuting the
claim's unconditional bound that every stored density lies in it. -/
theorem C1_density_cex : cellDensity (9 / 5) = 2 ∧ ¬cellDensity (9 / 5) ≤ 1 := by
  have h : cellDensity (9 / 5) = 2 := by
    rw [cellDensity, ZERO_ALPHA_THRESHOLD, ALPHA_ZERO_SCALING, map_range]
    rw [show |(9 / 5 : ℚ)| = 9 / 5 by norm_num]
    norm_num
  exact ⟨h, by rw [h]; norm_num⟩

/-- C2 (amended): the darkening factor is 0 at coverage 0 and 0.4 exactly at
coverage 120, but it is the unclamped linear image covered * 0.4 / 120 for
every coverage value (no clamping outside the domain, see the
counterexample); the sky colour is darkened by scaling each channel by
1 minus the factor, and while the sun has set the computation is bypassed in
favour of the fixed night colour. -/
theorem C2_occlusion (covered : ℚ) (p : ℚ × ℚ) (sky : RgbaU8) :
    darkenFactor 0 = 0 ∧ darkenFactor 120 = 0.4 ∧
    darkenFactor covered = covered * 0.4 / 120 ∧
    occlusionUpdate p covered sky =
      (if hasSet p then NIGHT_SKY_COLOR else darken_by sky (darkenFactor covered)) ∧
    darken_by sky (darkenFactor covered) =
      ⟨u_fmul sky.red (1 - darkenFactor covered),
       u_fmul sky.green (1 - darkenFactor covered),
       u_fmul sky.blue (1 - darkenFactor covered), sky.alpha⟩ := by
  refine ⟨by norm_num [darkenFactor, map_range],
    by norm_num [darkenFactor, map_range],
    by rw [darkenFactor, map_range]; ring, rfl, rfl⟩

/-- C2 counterexample: at summed coverage 240 the factor is 0.8, not the 0.4
the claim says any coverage at or above 120 clamps to. -/
theorem C2_occlusion_cex : darkenFactor 240 = 0.8 ∧ ¬darkenFactor 240 = 0.4 := by
  constructor <;> norm_num [darkenFactor, map_range]

/-- C3: the sun position is a pure function of the frame count and is
periodic: for every frame count f, it equals the position computed at
f mod (360 / SUN_CYCLE_SPEED). -/
theorem C3_sun_periodic (f : ℕ) :
    sunPos (f : ℝ) = sunPos (fmod (f : ℝ) (360 / (SUN_CYCLE_SPEED : ℝ))) := by
  have hy : (360 : ℝ) / (SUN_CYCLE_SPEED : ℝ) ≠ 0 := by
    rw [SUN_CYCLE_SPEED]
    norm_num
  unfold sunPos sunAngle
  rw [fmod_idem _ _ hy]

/-- C4: at every sun position at most one of rising_amount and setting_amount
is defined, and whenever one is defined its value lies in the unit interval
(the final clamp bounds the log remap whatever the logarithm's argument). -/
theorem C4_amounts (p : ℚ × ℚ) :
    ((risingAmount p).isSome && (settingAmount p).isSome) = false ∧
    optInUnit (risingAmount p) ∧ optInUnit (settingAmount p) := by
  refine ⟨?_, ?_, ?_⟩
  · cases hS : hasSet p <;> simp [risingAmount, settingAmount, hS]
  · rw [risingAmount]
    split_ifs with h
    · exact risingVal_mem p
    · trivial
  · rw [settingAmount]
    split_ifs with h
    · exact settingVal_mem p
    · trivial

/-- C5 (amended): has_set is true unless the left edge at radius SUN_RADIUS
is right of x = 0, the centre is above the horizon, and x minus
(SUN_RADIUS + SUN_AURA_SIZE) is left of the screen width; and it is not
simply the y test: at (0, 100) the centre is above the horizon yet has_set
holds.  (The claim's reading, edges at x plus-or-minus (R + aura) within the
horizontal bounds, is refuted by the counterexample.) -/
theorem C5_has_set :
    (∀ p : ℚ × ℚ, hasSet p = true ↔
      ¬(p.1 - (SUN_RADIUS : ℚ) > 0 ∧ p.2 > 0 ∧
        p.1 - ((SUN_RADIUS : ℚ) + (SUN_AURA_SIZE : ℚ)) < SCREEN_SIZE_F)) ∧
    hasSet (0, 100) = true ∧ ((0 : ℚ), (100 : ℚ)).2 > 0 := by
  refine ⟨fun p => ?_, by simp [hasSet, SUN_RADIUS], by norm_num⟩
  simp only [hasSet, Bool.not_eq_true', Bool.and_eq_false_iff, decide_eq_false_iff_not]
  tauto

/-- C5 counterexample: at position (480, 100) the code's has_set is false,
while the claim's combined predicate (trailing edge at x + (R + aura) = 540
outside the screen's horizontal bounds) demands true. -/
theorem C5_has_set_cex :
    hasSet (480, 100) = false ∧ hasSetSpec (480, 100) = true := by
  constructor
  · simp [hasSet, SUN_RADIUS, SUN_AURA_SIZE, SCREEN_SIZE_F]
    norm_num
  · simp [hasSetSpec, SUN_RADIUS, SUN_AURA_SIZE, SCREEN_SIZE_F]
    norm_num

/-- C6 (amended): transition_sky_color at amount 0 yields the day-blue
endpoint (135, 206, 250) exactly (sample 0 sits at position 0 even under the
end-exclusive spacing).  At amount 1 it yields sample 100, which palette 0.5's
end-exclusive Take places at position 100/101: the sunset-to-night mix at
factor 99/101, one quantization step (1/101 of the domain) short of the
night stop, whose per-channel deviation from the night stop in linear space
is exactly (2/101) times the sunset-to-night channel span — not the night
endpoint colour itself (see the counterexample).  The function is pure:
equal amounts give equal colours. -/
theorem C6_transition :
    transition_sky_color 0 = some (135, 206, 250) ∧
    transition_sky_color 1 = some (sampleColor 100) ∧
    gradientGet ((100 : ℝ) / 101) =
      mixColor (linColor SUNSET_SKY_COLOR) (linColor NIGHT_SKY_COLOR) (99 / 101) ∧
    ((gradientGet ((100 : ℝ) / 101)).1 - (linColor NIGHT_SKY_COLOR).1 =
        (2 / 101) * ((linColor SUNSET_SKY_COLOR).1 - (linColor NIGHT_SKY_COLOR).1) ∧
      (gradientGet ((100 : ℝ) / 101)).2.1 - (linColor NIGHT_SKY_COLOR).2.1 =
        (2 / 101) * ((linColor SUNSET_SKY_COLOR).2.1 - (linColor NIGHT_SKY_COLOR).2.1) ∧
      (gradientGet ((100 : ℝ) / 101)).2.2 - (linColor NIGHT_SKY_COLOR).2.2 =
        (2 / 101) * ((linColor SUNSET_SKY_COLOR).2.2 - (linColor NIGHT_SKY_COLOR).2.2)) ∧
    ∀ a : ℝ, transition_sky_color a = transition_sky_color a := by
  refine ⟨?_, transition_one, gradient_end, ?_, fun a => rfl⟩
  · rw [transition_sky_color, mapR01_100]
    norm_num
    rw [sampleColor]
    norm_num [gradientGet]
    rw [mixColor_zero]
    simp only [linColor, LIGHTSKYBLUE]
    refine ⟨?_, ?_, ?_⟩
    · simpa using channel_out 135 (by norm_num) (by norm_num)
    · simpa using channel_out 206 (by norm_num) (by norm_num)
    · simpa using channel_out 250 (by norm_num) (by norm_num)
  · rw [gradient_end]
    simp only [mixColor]
    refine ⟨by ring, by ring, by ring⟩

/-- C6 counterexample: at amount 1 the program does not output the night
endpoint (20, 30, 37): sample 100 sits at gradient position 100/101, and its
red channel is at least 21 (the sunset red bleeds in at weight 2/101), so the
output differs from the night endpoint in the red channel. -/
theorem C6_transition_cex : transition_sky_color 1 ≠ some (20, 30, 37) := by
  rw [transition_one]
  intro h
  injection h with h2
  have hred : (sampleColor 100).1 = 20 := by rw [h2]
  have := sample100_red_lb
  omega

/-- C7: evaluating the per-cell density at a NaN raw noise sample.  The code
does NOT zero it: NaN fails the `< threshold` comparison, falls into the
remap branch and the stored density is NaN, contradicting the claim that a
NaN result is treated as density 0. -/
theorem C7_nan_density : cellDensityF none = none ∧ cellDensityF none ≠ some 0 := by
  have h : cellDensityF none = none := rfl
  exact ⟨h, by rw [h]; simp⟩

/-- C8: the moon texture is a pure function of the fixed centre, radius and
noise parameters (two invocations are equal), and every stored alpha obeys
the threshold rule: 0 when the scaled magnitude is below 0.2, else the remap
from the domain 0.2 to 1 onto the range 0 to 0.85. -/
theorem C8_moon_texture (noise : ℚ → ℚ → ℚ) :
    moonTexture noise = moonTexture noise ∧
    ((moonTexture noise).all fun e => alphaSpec noise e) = true := by
  refine ⟨rfl, ?_⟩
  rw [List.all_eq_true]
  intro e he
  rw [moonTexture] at he
  rcases List.mem_flatMap.mp he with ⟨i, hi, hj⟩
  rcases List.mem_filterMap.mp hj with ⟨j, hjm, heq⟩
  by_cases hd : i * i + j * j < (MOON_RADIUS : ℤ) * (MOON_RADIUS : ℤ)
  · rw [if_pos hd] at heq
    cases heq
    simp only [alphaSpec, moonAlpha]
    split_ifs with h
    · simp
    · simp
  · rw [if_neg hd] at heq
    simp at heq

/-- C9: under speedup the sun's frame count is scaled by the integer
truncation of SPEEDUP_FACTOR, which is 9, while the cloud field's time delta
is scaled by the full rational factor 9.5; the two scale factors differ. -/
theorem C9_speedup_scales :
    ratToU64 SPEEDUP_FACTOR = 9 ∧
    (∀ f : ℕ, sunFrames true f = f * 9) ∧
    (∀ f : ℕ, cloudDelta true f = SPEEDUP_FACTOR * cloudDelta false f) ∧
    ((ratToU64 SPEEDUP_FACTOR : ℚ) ≠ SPEEDUP_FACTOR) := by
  have h9 : ratToU64 SPEEDUP_FACTOR = 9 := by
    rw [ratToU64, SPEEDUP_FACTOR,
      show ⌊(9.5 : ℚ)⌋ = 9 by norm_num [Int.floor_eq_iff]]
    rfl
  refine ⟨h9, fun f => by simp [sunFrames, h9],
    fun f => by simp [cloudDelta]; ring,
    by rw [h9]; norm_num [SPEEDUP_FACTOR]⟩

/-- C10: for every sun position the cycle amount handed to
transition_sky_color lies in the unit interval, the quantized gradient index
stays at most 100, and the gradient lookup is Some (so the source's unwrap
cannot panic when called from update). -/
theorem C10_cycle_amount_safe (p : ℚ × ℚ) :
    (0 ≤ cycleAmount p ∧ cycleAmount p ≤ 1) ∧
    Int.toNat ⌊map_rangeR (cycleAmount p) 0 1 0 100⌋ ≤ 100 ∧
    (transition_sky_color (cycleAmount p)).isSome = true := by
  have hm := cycleAmount_mem p
  refine ⟨hm, ?_, transition_isSome _ hm.1 hm.2⟩
  rw [mapR01_100]
  have hle : (100 : ℝ) * cycleAmount p ≤ 100 := by nlinarith [hm.2]
  have hf : ⌊(100 : ℝ) * cycleAmount p⌋ ≤ 100 := by
    calc ⌊(100 : ℝ) * cycleAmount p⌋ ≤ ⌊(100 : ℝ)⌋ := Int.floor_le_floor hle
      _ = 100 := by norm_num
  exact Int.toNat_le.mpr hf

end SkySim
